import Mathlib

/-!
Verification of the Rubiksolver core (MintPlayer/WebGames).

Shallow embedding of:
  - Rubiksolver.Models.CubeState (faces, Reset, IsSolved, ToKociembaString,
    ValidateState) from src/Rubiksolver/Models/CubeState.cs
  - Rubiksolver.Services.CubeSolver.Solve from src/unnamed/part_003
  - Kociemba.Tools.verify and Kociemba.Tools.randomCube from
    src/Rubiksolver/Kociemba/K_Tools.cs

The Kociemba library internals (CubieCube, FaceCube, CoordCube,
SearchRunTime) are not part of the available sources; where a claim needs
them they are modelled from the specification, and each such definition
says so in its doc comment.
-/

namespace WebGames

/-- The six cube faces, as in the C# face switch of ValidateState
(strings U, D, F, B, R, L in the source). -/
inductive Face
  | U | D | F | B | R | L
  deriving DecidableEq, Fintype, Repr

/-- CubeState: six faces of 9 stickers each, each sticker a color string
(W, Y, G, B, R, O on a well-formed cube). Mirrors the six string[9]
properties of the C# class. -/
structure CubeState where
  U : Fin 9 → String
  D : Fin 9 → String
  F : Fin 9 → String
  B : Fin 9 → String
  R : Fin 9 → String
  L : Fin 9 → String

/-- GetFace helper of ValidateState: the sticker array of a named face. -/
def getFace (s : CubeState) : Face → (Fin 9 → String)
  | .U => s.U
  | .D => s.D
  | .F => s.F
  | .B => s.B
  | .R => s.R
  | .L => s.L

/-- The solved state that Reset produces: Array.Fill of W, Y, G, B, R, O
on U, D, F, B, R, L respectively. -/
def solvedState : CubeState :=
  { U := fun _ => "W", D := fun _ => "Y", F := fun _ => "G"
    B := fun _ => "B", R := fun _ => "R", L := fun _ => "O" }

/-- Reset: fills every face with its home color, independently of the
previous contents (Array.Fill overwrites all 9 entries). -/
def reset (_ : CubeState) : CubeState := solvedState

/-- The CubeState constructor calls Reset, so a fresh instance is the
result of Reset on arbitrary contents. -/
def newCubeState : CubeState := reset solvedState

/-- IsSolved: every sticker of every face equals that face of the home
color (U all W, D all Y, F all G, B all B, R all R, L all O). -/
def isSolved (s : CubeState) : Bool :=
  (List.finRange 9).all (fun i => s.U i == "W") &&
  (List.finRange 9).all (fun i => s.D i == "Y") &&
  (List.finRange 9).all (fun i => s.F i == "G") &&
  (List.finRange 9).all (fun i => s.B i == "B") &&
  (List.finRange 9).all (fun i => s.R i == "R") &&
  (List.finRange 9).all (fun i => s.L i == "O")

/-- Helper to build a face from a 9-element list of sticker colors. -/
def mkFace (l : List String) : Fin 9 → String := fun i => l.getD i ""

/-! ### ToKociembaString -/

/-- The color-to-face dictionary of ToKociembaString; none models the
KeyNotFoundException thrown by the C# dictionary indexer for an
unrecognized color. -/
def colorToFace (c : String) : Option Char :=
  if c = "W" then some 'U'
  else if c = "R" then some 'R'
  else if c = "G" then some 'F'
  else if c = "Y" then some 'D'
  else if c = "O" then some 'L'
  else if c = "B" then some 'B'
  else none

/-- The message of the KeyNotFoundException raised by the dictionary
indexer inside ToKociembaString. -/
def keyNotFoundMsg : String := "The given key was not present in the dictionary."

/-- All 54 stickers in the order ToKociembaString visits them:
faces U, R, F, D, L, B, each from index 0 to 8. -/
def kociembaOrderStickers (s : CubeState) : List String :=
  ([Face.U, Face.R, Face.F, Face.D, Face.L, Face.B]).flatMap
    (fun f => (List.finRange 9).map (getFace s f))

/-- ToKociembaString: map every sticker through the color dictionary in
face order U, R, F, D, L, B; an unrecognized color throws (modelled as
the error branch of Except). -/
def toKociembaString (s : CubeState) : Except String String :=
  match (kociembaOrderStickers s).mapM colorToFace with
  | some cs => .ok (String.mk cs)
  | none => .error keyNotFoundMsg

/-- The canonical solved Kociemba string compared against in Solve. -/
def solvedKociemba : String :=
  "UUUUUUUUURRRRRRRRRFFFFFFFFFDDDDDDDDDLLLLLLLLLBBBBBBBBB"

/-! ### ValidateState -/

/-- Ordinal lexicographic order on character lists; on the one-letter
color strings this is exactly the comparison OrderBy uses. -/
def charListLt : List Char → List Char → Bool
  | [], [] => false
  | [], _ :: _ => true
  | _ :: _, [] => false
  | a :: as, b :: bs =>
    if a.toNat < b.toNat then true
    else if b.toNat < a.toNat then false
    else charListLt as bs

/-- String comparison used when sorting the colors of an edge or corner. -/
def strLt (a b : String) : Bool := charListLt a.data b.data

/-- Stable two-element OrderBy followed by Concat, as used for edge color
pairs: the smaller string first (ties keep the first argument first,
which gives the same concatenation). -/
def sortedPairOf (c1 c2 : String) : String :=
  if strLt c2 c1 then c2 ++ c1 else c1 ++ c2

/-- Stable three-element OrderBy followed by Concat, for corner color
triples. -/
def sortedTripleOf (c1 c2 c3 : String) : String :=
  let x := if strLt c2 c1 then c2 else c1
  let y := if strLt c2 c1 then c1 else c2
  if strLt c3 x then c3 ++ x ++ y
  else if strLt c3 y then x ++ c3 ++ y
  else x ++ y ++ c3

/-- The valid edge color pairs of ValidateState (colors sorted
alphabetically, B < G < O < R < W < Y). -/
def validEdges : List String :=
  ["GW", "RW", "BW", "OW", "GY", "RY", "BY", "OY", "GR", "GO", "BR", "BO"]

/-- The valid corner color triples of ValidateState (sorted). -/
def validCorners : List String :=
  ["GRW", "GOW", "BRW", "BOW", "GRY", "GOY", "BRY", "BOY"]

/-- One entry of the edgePositions table: two facelets and the canonical
position name. -/
structure EdgePos where
  f1 : Face
  i1 : Fin 9
  f2 : Face
  i2 : Fin 9
  pos : String
  deriving DecidableEq, Repr

/-- The 12 physical edge positions of ValidateState. -/
def edgePositions : List EdgePos :=
  [⟨.U, 7, .F, 1, "UF"⟩, ⟨.U, 5, .R, 1, "UR"⟩, ⟨.U, 1, .B, 1, "UB"⟩, ⟨.U, 3, .L, 1, "UL"⟩,
   ⟨.D, 1, .F, 7, "DF"⟩, ⟨.D, 5, .R, 7, "DR"⟩, ⟨.D, 7, .B, 7, "DB"⟩, ⟨.D, 3, .L, 7, "DL"⟩,
   ⟨.F, 5, .R, 3, "FR"⟩, ⟨.F, 3, .L, 5, "FL"⟩, ⟨.B, 3, .R, 5, "BR"⟩, ⟨.B, 5, .L, 3, "BL"⟩]

/-- One entry of the cornerPositions table: three facelets and the
canonical position name. -/
structure CornerPos where
  f1 : Face
  i1 : Fin 9
  f2 : Face
  i2 : Fin 9
  f3 : Face
  i3 : Fin 9
  pos : String
  deriving DecidableEq, Repr

/-- The 8 physical corner positions of ValidateState. -/
def cornerPositions : List CornerPos :=
  [⟨.U, 8, .F, 2, .R, 0, "UFR"⟩, ⟨.U, 6, .F, 0, .L, 2, "UFL"⟩,
   ⟨.U, 2, .B, 0, .R, 2, "UBR"⟩, ⟨.U, 0, .B, 2, .L, 0, "UBL"⟩,
   ⟨.D, 2, .F, 8, .R, 6, "DFR"⟩, ⟨.D, 0, .F, 6, .L, 8, "DFL"⟩,
   ⟨.D, 8, .B, 6, .R, 8, "DBR"⟩, ⟨.D, 6, .B, 8, .L, 6, "DBL"⟩]

/-- The two sticker colors read at each edge position, with the position
name; ValidateState reads exactly these during the edge loop. -/
def edgeReads (s : CubeState) : List (String × String × String) :=
  edgePositions.map (fun p => (getFace s p.f1 p.i1, getFace s p.f2 p.i2, p.pos))

/-- The three sticker colors read at each corner position, with the
position name. -/
def cornerReads (s : CubeState) : List (String × String × String × String) :=
  cornerPositions.map
    (fun p => (getFace s p.f1 p.i1, getFace s p.f2 p.i2, getFace s p.f3 p.i3, p.pos))

/-- The sorted color-pair key of one edge read. -/
def edgeKey (r : String × String × String) : String := sortedPairOf r.1 r.2.1

/-- The sorted color-triple key of one corner read. -/
def cornerKey (r : String × String × String × String) : String :=
  sortedTripleOf r.1 r.2.1 r.2.2.1

/-- The dictionary entry edgeCounts[e]: position names of the edge reads
whose sorted pair equals e, in table order. -/
def edgeOcc (s : CubeState) (e : String) : List String :=
  ((edgeReads s).filter (fun r => decide (edgeKey r = e))).map (fun r => r.2.2)

/-- The dictionary entry cornerCounts[c]. -/
def cornerOcc (s : CubeState) (c : String) : List String :=
  ((cornerReads s).filter (fun r => decide (cornerKey r = c))).map (fun r => r.2.2.2)

/-- Join a list of strings with a separator, as string.Join does. -/
def joinSep (sep : String) : List String → String
  | [] => ""
  | [a] => a
  | a :: rest => a ++ sep ++ joinSep sep rest

/-- Format a two-letter edge key as in the missing/duplicate messages:
first letter, dash, second letter. -/
def fmtEdgeName (e : String) : String :=
  match e.data with
  | [a, b] => String.mk [a, '-', b]
  | _ => e

/-- Format a three-letter corner key: letters separated by dashes. -/
def fmtCornerName (c : String) : String :=
  match c.data with
  | [a, b, x] => String.mk [a, '-', b, '-', x]
  | _ => c

/-- InvalidEdges: for each edge position whose sorted pair is not a valid
edge combination, the entry c1-c2 at pos, in table order. -/
def invalidEdgesList (s : CubeState) : List String :=
  ((edgeReads s).filter (fun r => !(validEdges.contains (edgeKey r)))).map
    (fun r => r.1 ++ "-" ++ r.2.1 ++ " at " ++ r.2.2)

/-- MissingEdges: valid edges with no occurrence, formatted E1-E2. -/
def missingEdgesList (s : CubeState) : List String :=
  (validEdges.filter (fun e => (edgeOcc s e).isEmpty)).map fmtEdgeName

/-- DuplicateEdges: valid edges occurring more than once, with the list
of positions. -/
def duplicateEdgesList (s : CubeState) : List String :=
  (validEdges.filter (fun e => decide (1 < (edgeOcc s e).length))).map
    (fun e => fmtEdgeName e ++ " at " ++ joinSep ", " (edgeOcc s e))

/-- InvalidCorners, formatted c1-c2-c3 at pos. -/
def invalidCornersList (s : CubeState) : List String :=
  ((cornerReads s).filter (fun r => !(validCorners.contains (cornerKey r)))).map
    (fun r => r.1 ++ "-" ++ r.2.1 ++ "-" ++ r.2.2.1 ++ " at " ++ r.2.2.2)

/-- MissingCorners, formatted C1-C2-C3. -/
def missingCornersList (s : CubeState) : List String :=
  (validCorners.filter (fun c => (cornerOcc s c).isEmpty)).map fmtCornerName

/-- DuplicateCorners. -/
def duplicateCornersList (s : CubeState) : List String :=
  (validCorners.filter (fun c => decide (1 < (cornerOcc s c).length))).map
    (fun c => fmtCornerName c ++ " at " ++ joinSep ", " (cornerOcc s c))

/-- ValidationResult: the six independent issue lists. -/
structure ValidationResult where
  missingEdges : List String
  duplicateEdges : List String
  invalidEdges : List String
  missingCorners : List String
  duplicateCorners : List String
  invalidCorners : List String
  deriving DecidableEq, Repr

/-- HasIssues: some list is non-empty. -/
def hasIssues (r : ValidationResult) : Bool :=
  !r.missingEdges.isEmpty || !r.duplicateEdges.isEmpty || !r.invalidEdges.isEmpty ||
  !r.missingCorners.isEmpty || !r.duplicateCorners.isEmpty || !r.invalidCorners.isEmpty

/-- The ValidationResult that ValidateState assembles. -/
def buildValidation (s : CubeState) : ValidationResult :=
  { missingEdges := missingEdgesList s
    duplicateEdges := duplicateEdgesList s
    invalidEdges := invalidEdgesList s
    missingCorners := missingCornersList s
    duplicateCorners := duplicateCornersList s
    invalidCorners := invalidCornersList s }

/-- ValidateState: null (none) when there are no issues, otherwise the
assembled report. -/
def validateState (s : CubeState) : Option ValidationResult :=
  let r := buildValidation s
  if hasIssues r then some r else none

/-- GetDetailedMessage of ValidationResult: the non-empty categories in
source order, joined with periods. -/
def getDetailedMessage (r : ValidationResult) : String :=
  joinSep ". " (List.filterMap id
    [if r.invalidEdges.isEmpty then none
       else some ("Invalid edges: " ++ joinSep "; " r.invalidEdges),
     if r.missingEdges.isEmpty then none
       else some ("Missing edges: " ++ joinSep ", " r.missingEdges),
     if r.duplicateEdges.isEmpty then none
       else some ("Duplicate edges: " ++ joinSep "; " r.duplicateEdges),
     if r.invalidCorners.isEmpty then none
       else some ("Invalid corners: " ++ joinSep "; " r.invalidCorners),
     if r.missingCorners.isEmpty then none
       else some ("Missing corners: " ++ joinSep ", " r.missingCorners),
     if r.duplicateCorners.isEmpty then none
       else some ("Duplicate corners: " ++ joinSep "; " r.duplicateCorners)])

/-! ### CubeSolver.Solve (src/unnamed/part_003) -/

/-- SolveResponse: solution moves, move count, elapsed milliseconds and
the optional error message, as in the C# model class. -/
structure SolveResponse where
  solution : List String
  moveCount : Nat
  solveTimeMs : Nat
  error : Option String
  deriving DecidableEq, Repr

/-- StartsWith check used on the search result string. -/
def startsWithError (s : String) : Bool := "Error".data.isPrefixOf s.data

/-- GetErrorMessage: the switch mapping engine error codes to messages. -/
def getErrorMessage (errorCode : String) : String :=
  if errorCode = "Error 1" then "Invalid cube: Not exactly one facelet of each color"
  else if errorCode = "Error 2" then "Invalid cube: Not all 12 edges exist exactly once"
  else if errorCode = "Error 3" then "Invalid cube: One edge has to be flipped"
  else if errorCode = "Error 4" then "Invalid cube: Not all 8 corners exist exactly once"
  else if errorCode = "Error 5" then "Invalid cube: One corner has to be twisted"
  else if errorCode = "Error 6" then
    "Invalid cube: Two corners or two edges have to be exchanged (parity error)"
  else if errorCode = "Error 7" then "No solution found within max depth"
  else if errorCode = "Error 8" then "Timeout - no solution found within time limit"
  else errorCode

/-- Split a character list on spaces (the behavior of
Split with a space separator and RemoveEmptyEntries, before
the empty entries are filtered out). -/
def splitSp : List Char → List Char → List String
  | [], cur => [String.mk cur.reverse]
  | c :: rest, cur =>
    if c = ' ' then String.mk cur.reverse :: splitSp rest []
    else splitSp rest (c :: cur)

/-- Trim: remove the whitespace at both ends of a token. -/
def trimStr (s : String) : String :=
  String.mk (((s.data.dropWhile Char.isWhitespace).reverse.dropWhile
    Char.isWhitespace).reverse)

/-- IsNullOrWhiteSpace on a (non-null) string. -/
def isWhiteSpaceStr (s : String) : Bool := s.data.all Char.isWhitespace

/-- ParseSolution: empty for whitespace input, otherwise split on spaces,
trim each token and keep the non-empty ones. -/
def parseSolution (solutionString : String) : List String :=
  if isWhiteSpaceStr solutionString then []
  else ((splitSp solutionString.data []).map trimStr).filter (fun m => m ≠ "")

/-- The tail of Solve after the engine returned solutionString: either an
error response or the parsed move list. -/
def finishSearch (elapsed : Nat) (solutionString : String) : SolveResponse :=
  if startsWithError solutionString then
    ⟨[], 0, elapsed, some (getErrorMessage solutionString)⟩
  else
    let moves := parseSolution solutionString
    ⟨moves, moves.length, elapsed, none⟩

/-- The try block of Solve. The two-phase engine entry point
SearchRunTime.solution is not among the available sources, so it is
passed in as a pure function of the cube string, maxDepth and timeOut;
an error branch models an exception escaping to the catch clause. The
stopwatch reading is the elapsed parameter. -/
def solveTry (search : String → Nat → Nat → String) (elapsed : Nat)
    (state : CubeState) : Except String SolveResponse :=
  match validateState state with
  | some validationResult =>
    .ok ⟨[], 0, elapsed, some ("Invalid cube: " ++ getDetailedMessage validationResult)⟩
  | none =>
    match toKociembaString state with
    | .error m => .error m
    | .ok kociembaString =>
      if kociembaString = solvedKociemba then .ok ⟨[], 0, elapsed, none⟩
      else .ok (finishSearch elapsed (search kociembaString 22 10000))

/-- Solve: the try block with its catch-all, which turns any exception
into a response carrying the exception message. -/
def solve (search : String → Nat → Nat → String) (elapsed : Nat)
    (state : CubeState) : SolveResponse :=
  match solveTry search elapsed state with
  | .ok response => response
  | .error m => ⟨[], 0, elapsed, some m⟩

/-! ### Kociemba.Tools.verify (src/Rubiksolver/Kociemba/K_Tools.cs)

The verify wrapper and the randomCube rejection loop are in the sources;
the CubeColor enum, CubieCube and its verify method, and the coordinate
setters are part of the Kociemba library, which is absent from src, and
are modelled from the specification. -/

/-- Modelled from the spec: the CubeColor enum of the Kociemba library is
absent from src; per the spec there are exactly six face colors in order
U, R, F, D, L, B, and parsing any other token throws (none). -/
def parseColor : Char → Option Nat
  | 'U' => some 0
  | 'R' => some 1
  | 'F' => some 2
  | 'D' => some 3
  | 'L' => some 4
  | 'B' => some 5
  | _ => none

/-- Modelled from the spec: a cubie cube is a corner permutation with
corner orientations plus an edge permutation with edge orientations
(spec section 3); permutations are kept as lists of piece identities in
slot order, orientations as lists of values. CubieCube is absent from
src. -/
structure CubieCube where
  cp : List Nat
  co : List Nat
  ep : List Nat
  eo : List Nat
  deriving DecidableEq, Repr

/-- Number of inversions of a sequence: pairs appearing in decreasing
order. -/
def inversions : List Nat → Nat
  | [] => 0
  | a :: t => t.countP (fun b => decide (b < a)) + inversions t

/-- Corner permutation parity (0 or 1). -/
def cornerParity (c : CubieCube) : Nat := inversions c.cp % 2

/-- Edge permutation parity (0 or 1). -/
def edgeParity (c : CubieCube) : Nat := inversions c.ep % 2

/-- Modelled from the spec: CubieCube.verify is absent from src; per the
doc comment of Tools.verify and spec section 4.3 it distinguishes, in
order, edge existence (-2), the single-edge-flip invariant (-3), corner
existence (-4), the single-corner-twist invariant (-5) and the
corner/edge permutation parity match (-6), and returns 0 for a solvable
cube. -/
def ccVerify (c : CubieCube) : Int :=
  if ¬ (∀ e ∈ List.range 12, c.ep.count e = 1) then -2
  else if c.eo.sum % 2 ≠ 0 then -3
  else if ¬ (∀ e ∈ List.range 8, c.cp.count e = 1) then -4
  else if c.co.sum % 3 ≠ 0 then -5
  else if cornerParity c ≠ edgeParity c then -6
  else 0

/-- The per-color tally loop of Tools.verify: parse the first 54
characters and count each color; none models the exception caught by the
try block (unknown token, or fewer than 54 characters). -/
def tallyColors (s : List Char) : Option (List Nat) :=
  if s.length < 54 then none else (s.take 54).mapM parseColor

/-- Tools.verify: -1 when tallying throws or some color does not occur
exactly 9 times; otherwise the cube is converted to a cubie cube and
checked. The facelet-to-cubie conversion (FaceCube.toCubieCube) is
absent from src and is passed in as a function. -/
def verify (conv : List Char → CubieCube) (s : List Char) : Int :=
  match tallyColors s with
  | none => -1
  | some cols =>
    if (List.range 6).all (fun i => cols.count i == 9) then ccVerify (conv s)
    else -1

/-- The well-colored check that the claim describes: the string parses
into the six colors with exactly nine facelets of each color. -/
def wellColoredCount (s : List Char) : Bool :=
  match s.mapM parseColor with
  | none => false
  | some cols => (List.range 6).all (fun i => cols.count i == 9)

/-! ### Kociemba.Tools.randomCube -/

/-- Modelled from the spec: decode a permutation coordinate in the
factorial number system, at each step choosing the next element of the
remaining pool (index clamped to the pool so that the function is total;
for coordinates below n factorial the clamp never fires). The coordinate
setters setURFtoDLB and setURtoBR are absent from src. -/
def decodeGo : Nat → Nat → List Nat → List Nat
  | 0, _, _ => []
  | n + 1, idx, l =>
    let k := min (idx / n.factorial) n
    l.getD k 0 :: decodeGo n (idx % n.factorial) (l.eraseIdx k)

/-- Decode a permutation coordinate over a pool of piece identities. -/
def decodePerm (idx : Nat) (l : List Nat) : List Nat := decodeGo l.length idx l

/-- Modelled from the spec: setFlip writes the edge orientation
coordinate (2048 values): eleven free binary orientations plus a last
one chosen so the sum is even. -/
def flipOris (flip : Nat) : List Nat :=
  let bits := (List.range 11).map (fun i => flip / 2 ^ i % 2)
  bits ++ [bits.sum % 2]

/-- Modelled from the spec: setTwist writes the corner orientation
coordinate (2187 values): seven free ternary orientations plus a last
one chosen so the sum is divisible by 3. -/
def twistOris (twist : Nat) : List Nat :=
  let trits := (List.range 7).map (fun i => twist / 3 ^ i % 3)
  trits ++ [(3 - trits.sum % 3) % 3]

/-- The cubie cube assembled by randomCube from one draw of the two
permutation coordinates (the orientation coordinates are drawn once,
before the loop). -/
def mkRandomCube (flip twist cpIdx epIdx : Nat) : CubieCube :=
  { cp := decodePerm cpIdx (List.range 8)
    co := twistOris twist
    ep := decodePerm epIdx (List.range 12)
    eo := flipOris flip }

/-- The do-while rejection loop of Tools.randomCube: draw the two
permutation coordinates, and repeat while the xor of the edge and corner
parities is non-zero. The random generator is modelled as the stream
perms of drawn coordinate pairs; fuel bounds the number of iterations
(none models a run that never satisfies the guard within fuel). -/
def randomCubeLoop (flip twist : Nat) (perms : Nat → Nat × Nat) :
    Nat → Nat → Option CubieCube
  | 0, _ => none
  | fuel + 1, k =>
    let c := mkRandomCube flip twist (perms k).1 (perms k).2
    if Nat.xor (edgeParity c) (cornerParity c) ≠ 0 then
      randomCubeLoop flip twist perms fuel (k + 1)
    else some c

/-- Tools.randomCube, returning the cubie cube the loop settles on (its
facelet string rendering, toFaceCube and to_fc_String, is absent from
src). -/
def randomCube (flip twist : Nat) (perms : Nat → Nat × Nat) (fuel : Nat) :
    Option CubieCube :=
  randomCubeLoop flip twist perms fuel 0

/-! ### Spec-side notions used to state the claims -/

/-- The six recognized color tokens of the data model. -/
def colorTokens : List String := ["W", "Y", "G", "B", "R", "O"]

/-- Number of occurrences of a color among all 54 stickers (the per-color
count of the spec invariant). -/
def colorCount (s : CubeState) (c : String) : Nat :=
  (kociembaOrderStickers s).count c

/-- The 12 canonical edge color pairs, stated as unordered pairs of color
tokens (spec wording); listed in the order of validEdges, each pair
sorted. -/
def specValidEdgePairs : List (String × String) :=
  [("G", "W"), ("R", "W"), ("B", "W"), ("O", "W"),
   ("G", "Y"), ("R", "Y"), ("B", "Y"), ("O", "Y"),
   ("G", "R"), ("G", "O"), ("B", "R"), ("B", "O")]

/-- The 8 canonical corner color triples as unordered triples of color
tokens, in the order of validCorners. -/
def specValidCornerTriples : List (String × String × String) :=
  [("G", "R", "W"), ("G", "O", "W"), ("B", "R", "W"), ("B", "O", "W"),
   ("G", "R", "Y"), ("G", "O", "Y"), ("B", "R", "Y"), ("B", "O", "Y")]

/-- An edge read shows the unordered color pair p. -/
def edgeShows (r : String × String × String) (p : String × String) : Bool :=
  (r.1 == p.1 && r.2.1 == p.2) || (r.1 == p.2 && r.2.1 == p.1)

/-- A corner read shows the unordered color triple t. -/
def cornerShows (r : String × String × String × String)
    (t : String × String × String) : Bool :=
  (r.1 == t.1 && r.2.1 == t.2.1 && r.2.2.1 == t.2.2) ||
  (r.1 == t.1 && r.2.1 == t.2.2 && r.2.2.1 == t.2.1) ||
  (r.1 == t.2.1 && r.2.1 == t.1 && r.2.2.1 == t.2.2) ||
  (r.1 == t.2.1 && r.2.1 == t.2.2 && r.2.2.1 == t.1) ||
  (r.1 == t.2.2 && r.2.1 == t.1 && r.2.2.1 == t.2.1) ||
  (r.1 == t.2.2 && r.2.1 == t.2.1 && r.2.2.1 == t.1)

/-- How many of the 12 physical edge positions show the canonical pair p
(spec wording of occurs among the edge positions). -/
def specEdgeOccCount (s : CubeState) (p : String × String) : Nat :=
  (edgeReads s).countP (fun r => edgeShows r p)

/-- How many of the 8 physical corner positions show the canonical
triple t. -/
def specCornerOccCount (s : CubeState) (t : String × String × String) : Nat :=
  (cornerReads s).countP (fun r => cornerShows r t)

/-- Every sticker that sits on an edge or corner facelet (all facelets
except the six centers) is a recognized color token. -/
def nonCenterWellColored (s : CubeState) : Bool :=
  ((edgeReads s).all (fun r => colorTokens.contains r.1 && colorTokens.contains r.2.1)) &&
  ((cornerReads s).all (fun r =>
    colorTokens.contains r.1 && colorTokens.contains r.2.1 && colorTokens.contains r.2.2.1))

/-! ### Concrete layouts used as witnesses and counterexamples -/

/-- The solved layout with the UB edge sticker on the U face recolored to
green: the B-W edge pair disappears and an impossible G-B pair appears
at UB. -/
def missingEdgeState : CubeState :=
  { solvedState with U := Function.update solvedState.U 1 "G" }

/-- The report ValidateState produces for missingEdgeState. -/
def missingEdgeReport : ValidationResult :=
  ⟨["B-W"], [], ["G-B at UB"], [], [], []⟩

/-- The solved layout with the U center recolored to yellow: the yellow
count is 10 and the white count is 8, yet no edge or corner is
affected. -/
def badCenterState : CubeState :=
  { solvedState with U := Function.update solvedState.U 4 "Y" }

/-- The solved layout with the F center set to an unrecognized token. -/
def qCenterState : CubeState :=
  { solvedState with F := Function.update solvedState.F 4 "Q" }

/-- The layout after one clockwise U turn of the solved cube: a legal,
unsolved cube. -/
def uTurnState : CubeState :=
  { U := fun _ => "W", D := fun _ => "Y"
    F := mkFace ["R", "R", "R", "G", "G", "G", "G", "G", "G"]
    B := mkFace ["O", "O", "O", "B", "B", "B", "B", "B", "B"]
    R := mkFace ["B", "B", "B", "R", "R", "R", "R", "R", "R"]
    L := mkFace ["G", "G", "G", "O", "O", "O", "O", "O", "O"] }

/-- The Kociemba string of uTurnState. -/
def uTurnK : String :=
  match toKociembaString uTurnState with
  | .ok k => k
  | .error _ => ""

/-- The identity cubie cube (solved), used to instantiate the abstract
facelet-to-cubie conversion in witnesses. -/
def idCubie : CubieCube :=
  ⟨List.range 8, List.replicate 8 0, List.range 12, List.replicate 12 0⟩

/-- A conversion function returning the solved cubie cube everywhere. -/
def convId : List Char → CubieCube := fun _ => idCubie

/-- The characters of the canonical solved cube string. -/
def solvedChars : List Char := solvedKociemba.data

/-- The Kociemba string of badCenterState. -/
def badCenterK : String :=
  match toKociembaString badCenterState with
  | .ok k => k
  | .error _ => ""

/-- Whether needle occurs as a contiguous segment of the second list. -/
def hasSeg (needle : List Char) : List Char → Bool
  | [] => needle.isEmpty
  | c :: rest => needle.isPrefixOf (c :: rest) || hasSeg needle rest

/-! ### Counting lemmas for the validator -/

lemma countP_key_sum {α : Type} (key : α → String) (T : Finset String) (l : List α) :
    l.countP (fun r => decide (key r ∈ T)) =
      ∑ e ∈ T, l.countP (fun r => decide (key r = e)) := by
  induction l with
  | nil => simp
  | cons a t ih =>
    simp only [List.countP_cons, ih, decide_eq_true_eq]
    rw [Finset.sum_add_distrib, Finset.sum_ite_eq]

lemma key_count_all_mem {α : Type} (key : α → String) (E : List String)
    (l : List α) (hlen : l.length = E.toFinset.card)
    (h1 : ∀ e ∈ E, l.countP (fun r => decide (key r = e)) = 1) :
    ∀ r ∈ l, key r ∈ E := by
  have hsum : l.countP (fun r => decide (key r ∈ E.toFinset)) = E.toFinset.card := by
    rw [countP_key_sum, Finset.sum_congr rfl
      (fun e he => h1 e (List.mem_toFinset.mp he))]
    simp
  have hall : ∀ r ∈ l, decide (key r ∈ E.toFinset) = true :=
    List.countP_eq_length.mp (by omega)
  intro r hr
  simpa using hall r hr

lemma edgeOcc_length (s : CubeState) (e : String) :
    (edgeOcc s e).length = (edgeReads s).countP (fun r => decide (edgeKey r = e)) := by
  simp [edgeOcc, List.countP_eq_length_filter]

lemma cornerOcc_length (s : CubeState) (c : String) :
    (cornerOcc s c).length =
      (cornerReads s).countP (fun r => decide (cornerKey r = c)) := by
  simp [cornerOcc, List.countP_eq_length_filter]

/-- ValidateState reports no issues exactly when every valid edge key and
every valid corner key is hit exactly once by the physical positions. -/
lemma validate_none_iff (s : CubeState) :
    validateState s = none ↔
      ((∀ e ∈ validEdges, (edgeReads s).countP (fun r => decide (edgeKey r = e)) = 1) ∧
       (∀ c ∈ validCorners, (cornerReads s).countP (fun r => decide (cornerKey r = c)) = 1)) := by
  have hnone : validateState s = none ↔ hasIssues (buildValidation s) = false := by
    unfold validateState
    by_cases h : hasIssues (buildValidation s) <;> simp [h]
  have hsix : hasIssues (buildValidation s) = false ↔
      (missingEdgesList s = [] ∧ duplicateEdgesList s = [] ∧ invalidEdgesList s = [] ∧
       missingCornersList s = [] ∧ duplicateCornersList s = [] ∧ invalidCornersList s = []) := by
    simp only [hasIssues, buildValidation, Bool.or_eq_false_iff, Bool.not_eq_false',
      List.isEmpty_iff, and_assoc]
  rw [hnone, hsix]
  constructor
  · rintro ⟨hmE, hdE, _hiE, hmC, hdC, _hiC⟩
    constructor
    · intro e he
      have h0 : ¬ (edgeOcc s e).isEmpty = true := by
        have := (List.map_eq_nil_iff.mp hmE)
        have := List.filter_eq_nil_iff.mp (List.map_eq_nil_iff.mp hmE) e he
        simpa using this
      have h2 : ¬ (1 < (edgeOcc s e).length) := by
        have := List.filter_eq_nil_iff.mp (List.map_eq_nil_iff.mp hdE) e he
        simpa using this
      have h3 : (edgeOcc s e) ≠ [] := by simpa [List.isEmpty_iff] using h0
      have h4 : (edgeOcc s e).length ≠ 0 := by
        simpa [List.length_eq_zero] using h3
      have := edgeOcc_length s e
      omega
    · intro c hc
      have h0 : ¬ (cornerOcc s c).isEmpty = true := by
        have := List.filter_eq_nil_iff.mp (List.map_eq_nil_iff.mp hmC) c hc
        simpa using this
      have h2 : ¬ (1 < (cornerOcc s c).length) := by
        have := List.filter_eq_nil_iff.mp (List.map_eq_nil_iff.mp hdC) c hc
        simpa using this
      have h3 : (cornerOcc s c) ≠ [] := by simpa [List.isEmpty_iff] using h0
      have h4 : (cornerOcc s c).length ≠ 0 := by
        simpa [List.length_eq_zero] using h3
      have := cornerOcc_length s c
      omega
  · rintro ⟨hE, hC⟩
    have hmemE : ∀ r ∈ edgeReads s, edgeKey r ∈ validEdges := by
      refine key_count_all_mem edgeKey validEdges (edgeReads s) ?_ hE
      rw [show validEdges.toFinset.card = 12 from by decide]
      simp [edgeReads, edgePositions]
    have hmemC : ∀ r ∈ cornerReads s, cornerKey r ∈ validCorners := by
      refine key_count_all_mem cornerKey validCorners (cornerReads s) ?_ hC
      rw [show validCorners.toFinset.card = 8 from by decide]
      simp [cornerReads, cornerPositions]
    refine ⟨?_, ?_, ?_, ?_, ?_, ?_⟩
    · refine List.map_eq_nil_iff.mpr (List.filter_eq_nil_iff.mpr ?_)
      intro e he
      have := hE e he
      have hlen := edgeOcc_length s e
      simp only [List.isEmpty_iff, ← List.length_eq_zero]
      omega
    · refine List.map_eq_nil_iff.mpr (List.filter_eq_nil_iff.mpr ?_)
      intro e he
      have := hE e he
      have hlen := edgeOcc_length s e
      simp only [decide_eq_true_eq]
      omega
    · refine List.map_eq_nil_iff.mpr (List.filter_eq_nil_iff.mpr ?_)
      intro r hr
      have := hmemE r hr
      simp [List.contains_iff_exists_mem_beq]
      exact this
    · refine List.map_eq_nil_iff.mpr (List.filter_eq_nil_iff.mpr ?_)
      intro c hc
      have := hC c hc
      have hlen := cornerOcc_length s c
      simp only [List.isEmpty_iff, ← List.length_eq_zero]
      omega
    · refine List.map_eq_nil_iff.mpr (List.filter_eq_nil_iff.mpr ?_)
      intro c hc
      have := hC c hc
      have hlen := cornerOcc_length s c
      simp only [decide_eq_true_eq]
      omega
    · refine List.map_eq_nil_iff.mpr (List.filter_eq_nil_iff.mpr ?_)
      intro r hr
      have := hmemC r hr
      simp [List.contains_iff_exists_mem_beq]
      exact this

/-! ### Bridging the sorted color keys to the unordered pairs and triples
of the spec wording (valid for stickers drawn from the six color
tokens) -/

lemma validEdges_eq_map :
    validEdges = specValidEdgePairs.map (fun p => p.1 ++ p.2) := by decide

lemma validCorners_eq_map :
    validCorners = specValidCornerTriples.map (fun t => t.1 ++ t.2.1 ++ t.2.2) := by decide

lemma edge_bridge : ∀ c1 ∈ colorTokens, ∀ c2 ∈ colorTokens, ∀ p ∈ specValidEdgePairs,
    ((sortedPairOf c1 c2 = p.1 ++ p.2) ↔ edgeShows (c1, c2, "") p = true) := by decide

lemma corner_bridge : ∀ c1 ∈ colorTokens, ∀ c2 ∈ colorTokens, ∀ c3 ∈ colorTokens,
    ∀ t ∈ specValidCornerTriples,
    ((sortedTripleOf c1 c2 c3 = t.1 ++ t.2.1 ++ t.2.2) ↔
      cornerShows (c1, c2, c3, "") t = true) := by decide

lemma edgeReads_colors (s : CubeState) (h : nonCenterWellColored s = true) :
    ∀ r ∈ edgeReads s, r.1 ∈ colorTokens ∧ r.2.1 ∈ colorTokens := by
  unfold nonCenterWellColored at h
  have h1 := ((Bool.and_eq_true _ _).mp h).1
  intro r hr
  have h2 := (Bool.and_eq_true _ _).mp (List.all_eq_true.mp h1 r hr)
  exact ⟨by simpa using h2.1, by simpa using h2.2⟩

lemma cornerReads_colors (s : CubeState) (h : nonCenterWellColored s = true) :
    ∀ r ∈ cornerReads s, r.1 ∈ colorTokens ∧ r.2.1 ∈ colorTokens ∧ r.2.2.1 ∈ colorTokens := by
  unfold nonCenterWellColored at h
  have h1 := ((Bool.and_eq_true _ _).mp h).2
  intro r hr
  have h2 := (Bool.and_eq_true _ _).mp (List.all_eq_true.mp h1 r hr)
  have h3 := (Bool.and_eq_true _ _).mp h2.1
  exact ⟨by simpa using h3.1, by simpa using h3.2, by simpa using h2.2⟩

lemma specEdgeCount_eq (s : CubeState) (h : nonCenterWellColored s = true)
    (p : String × String) (hp : p ∈ specValidEdgePairs) :
    (edgeReads s).countP (fun r => decide (edgeKey r = p.1 ++ p.2)) =
      specEdgeOccCount s p := by
  unfold specEdgeOccCount
  refine List.countP_congr ?_
  intro r hr
  obtain ⟨hm1, hm2⟩ := edgeReads_colors s h r hr
  have hb : (edgeKey r = p.1 ++ p.2) ↔ edgeShows r p = true :=
    edge_bridge r.1 hm1 r.2.1 hm2 p hp
  have hdec : decide (edgeKey r = p.1 ++ p.2) = decide (edgeShows r p = true) :=
    decide_eq_decide.mpr hb
  rw [hdec]
  rcases Bool.dichotomy (edgeShows r p) with hx | hx <;> rw [hx] <;> simp

lemma specCornerCount_eq (s : CubeState) (h : nonCenterWellColored s = true)
    (t : String × String × String) (ht : t ∈ specValidCornerTriples) :
    (cornerReads s).countP (fun r => decide (cornerKey r = t.1 ++ t.2.1 ++ t.2.2)) =
      specCornerOccCount s t := by
  unfold specCornerOccCount
  refine List.countP_congr ?_
  intro r hr
  obtain ⟨hm1, hm2, hm3⟩ := cornerReads_colors s h r hr
  have hb : (cornerKey r = t.1 ++ t.2.1 ++ t.2.2) ↔ cornerShows r t = true :=
    corner_bridge r.1 hm1 r.2.1 hm2 r.2.2.1 hm3 t ht
  have hdec : decide (cornerKey r = t.1 ++ t.2.1 ++ t.2.2) =
      decide (cornerShows r t = true) := decide_eq_decide.mpr hb
  rw [hdec]
  rcases Bool.dichotomy (cornerShows r t) with hx | hx <;> rw [hx] <;> simp

/-- The validator verdict, stated against the unordered color pairs and
triples of the spec. -/
lemma validate_none_iff_spec (s : CubeState) (h : nonCenterWellColored s = true) :
    validateState s = none ↔
      ((∀ p ∈ specValidEdgePairs, specEdgeOccCount s p = 1) ∧
       (∀ t ∈ specValidCornerTriples, specCornerOccCount s t = 1)) := by
  rw [validate_none_iff]
  constructor
  · rintro ⟨hE, hC⟩
    refine ⟨fun p hp => ?_, fun t ht => ?_⟩
    · rw [← specEdgeCount_eq s h p hp]
      exact hE (p.1 ++ p.2) (by rw [validEdges_eq_map]; exact List.mem_map_of_mem _ hp)
    · rw [← specCornerCount_eq s h t ht]
      exact hC (t.1 ++ t.2.1 ++ t.2.2)
        (by rw [validCorners_eq_map]; exact List.mem_map_of_mem _ ht)
  · rintro ⟨hE, hC⟩
    refine ⟨fun e he => ?_, fun c hc => ?_⟩
    · rw [validEdges_eq_map] at he
      obtain ⟨p, hp, rfl⟩ := List.mem_map.mp he
      rw [specEdgeCount_eq s h p hp]
      exact hE p hp
    · rw [validCorners_eq_map] at hc
      obtain ⟨t, ht, rfl⟩ := List.mem_map.mp hc
      rw [specCornerCount_eq s h t ht]
      exact hC t ht

/-- ValidateState returns the assembled six-list report whenever it
returns anything. -/
lemma validate_some_eq (s : CubeState) (r : ValidationResult)
    (h : validateState s = some r) : r = buildValidation s := by
  unfold validateState at h
  by_cases hi : hasIssues (buildValidation s)
  · rw [if_pos hi] at h
    exact (Option.some.injEq _ _ ▸ h).symm
  · rw [if_neg hi] at h
    cases h

/-- Solve reduced to the engine outcome once validation, conversion and
the solved-layout test have all passed. -/
lemma solve_reaches_search (search : String → Nat → Nat → String) (elapsed : Nat)
    (st : CubeState) (k : String) (hv : validateState st = none)
    (hk : toKociembaString st = .ok k) (hne : k ≠ solvedKociemba) :
    solve search elapsed st = finishSearch elapsed (search k 22 10000) := by
  unfold solve solveTry
  rw [hv, hk]
  simp only [if_neg hne]

/-! ### The claims -/

/-- Claim C1, counterexample: ValidateState tags invalid and duplicate
items with canonical position names, but a missing edge is reported by
its color combination alone; on the layout missingEdgeState the
missing-edge entry B-W contains no canonical edge position name as a
substring, so the claim that every listed item is tagged with its
canonical position name fails. -/
theorem claim1_counterexample :
    validateState missingEdgeState = some missingEdgeReport ∧
    missingEdgeReport.missingEdges = ["B-W"] ∧
    ((edgePositions.map (fun p => p.pos)).all
      (fun nm => !(hasSeg nm.data "B-W".data))) = true := by decide

/-- Claim C1, amended: for a layout whose edge and corner stickers use
the six color tokens, validation succeeds (reports no issues) if and
only if each of the 12 canonical edge color-pairs occurs exactly once
among the 12 physical edge positions and each of the 8 canonical corner
color-triples occurs exactly once among the 8 physical corner
positions; otherwise the report consists of the six independent lists
(missing, duplicate and impossible edges and corners), where duplicate
and impossible items carry canonical position names while missing items
are identified by their color combination. -/
theorem claim1_validation_iff (s : CubeState) (h : nonCenterWellColored s = true) :
    (validateState s = none ↔
      ((∀ p ∈ specValidEdgePairs, specEdgeOccCount s p = 1) ∧
       (∀ t ∈ specValidCornerTriples, specCornerOccCount s t = 1))) ∧
    (∀ r, validateState s = some r →
      r.missingEdges = (validEdges.filter (fun e => (edgeOcc s e).isEmpty)).map fmtEdgeName ∧
      r.duplicateEdges = duplicateEdgesList s ∧
      r.invalidEdges = ((edgeReads s).filter
        (fun x => !(validEdges.contains (edgeKey x)))).map
          (fun x => x.1 ++ "-" ++ x.2.1 ++ " at " ++ x.2.2) ∧
      r.missingCorners = (validCorners.filter (fun c => (cornerOcc s c).isEmpty)).map
        fmtCornerName ∧
      r.duplicateCorners = duplicateCornersList s ∧
      r.invalidCorners = ((cornerReads s).filter
        (fun x => !(validCorners.contains (cornerKey x)))).map
          (fun x => x.1 ++ "-" ++ x.2.1 ++ "-" ++ x.2.2.1 ++ " at " ++ x.2.2.2)) := by
  refine ⟨validate_none_iff_spec s h, ?_⟩
  intro r hr
  rw [validate_some_eq s r hr]
  exact ⟨rfl, rfl, rfl, rfl, rfl, rfl⟩

/-- Claim C1, witness: the solved layout is well colored and shows every
canonical pair and triple exactly once, hence validates cleanly. -/
theorem claim1_witness : validateState solvedState = none :=
  (claim1_validation_iff solvedState (by decide)).1.mpr ⟨by decide, by decide⟩

/-- Claim C2, counterexample: the layout badCenterState has ten yellow
stickers (so it fails the nine-per-color check), yet ValidateState
reports no issues and Solve hands it to the search engine: the engine
answer determines the response, and a move string returned by the
engine is parsed and returned as a solution. -/
theorem claim2_counterexample :
    colorCount badCenterState "Y" = 10 ∧
    validateState badCenterState = none ∧
    solve (fun _ _ _ => "U") 0 badCenterState = ⟨["U"], 1, 0, none⟩ ∧
    solve (fun _ _ _ => "Error 7") 0 badCenterState ≠
      solve (fun _ _ _ => "U") 0 badCenterState := by decide

/-- Claim C2, amended: ValidateState performs no token-recognition check
and no per-color count check; its verdict is determined by the edge and
corner facelets alone, so a layout whose unknown token or wrong color
count is confined to center facelets passes validation, and when its
conversion succeeds and it is not the solved layout the search engine
runs on it: Solve returns exactly the processed engine outcome. -/
theorem claim2_no_count_check (search : String → Nat → Nat → String) (elapsed : Nat)
    (st : CubeState) (k : String) (hv : validateState st = none)
    (hk : toKociembaString st = .ok k) (hne : k ≠ solvedKociemba) :
    solve search elapsed st = finishSearch elapsed (search k 22 10000) :=
  solve_reaches_search search elapsed st k hv hk hne

/-- Claim C2, witness: the miscounted layout badCenterState reaches the
engine. -/
theorem claim2_witness :
    solve (fun _ _ _ => "U") 0 badCenterState = finishSearch 0 "U" :=
  claim2_no_count_check (fun _ _ _ => "U") 0 badCenterState badCenterK
    (by decide) rfl (by decide)

/-- Claim C3: when validation reports any issue, Solve returns the typed
validation-error response — empty move list, zero count, the elapsed
time and the detailed validation message — independently of the search
engine (so neither the converter nor the engine affects the outcome);
and any exception escaping the try block is caught and converted into an
error response rather than propagated to the caller. -/
theorem claim3_validation_short_circuit (search : String → Nat → Nat → String)
    (elapsed : Nat) (s : CubeState) :
    (∀ r, validateState s = some r →
      solve search elapsed s =
        ⟨[], 0, elapsed, some ("Invalid cube: " ++ getDetailedMessage r)⟩) ∧
    (∀ m, solveTry search elapsed s = .error m →
      solve search elapsed s = ⟨[], 0, elapsed, some m⟩) := by
  constructor
  · intro r hr
    unfold solve solveTry
    rw [hr]
  · intro m hm
    unfold solve
    rw [hm]

/-- Claim C3, witness: on the invalid layout missingEdgeState the
response is the validation error, no matter the engine. -/
theorem claim3_witness :
    solve (fun _ _ _ => "U") 5 missingEdgeState =
      ⟨[], 0, 5, some ("Invalid cube: " ++ getDetailedMessage missingEdgeReport)⟩ :=
  (claim3_validation_short_circuit (fun _ _ _ => "U") 5 missingEdgeState).1
    missingEdgeReport (by decide)

/-- Claim C4: on the canonical solved layout Solve returns the empty move
list with move count 0, for every search engine (the engine is never
consulted). -/
theorem claim4_solved_fast_path (search : String → Nat → Nat → String)
    (elapsed : Nat) :
    solve search elapsed solvedState = ⟨[], 0, elapsed, none⟩ := rfl

/-- Claim C5: whenever Solve fails (the response carries an error), the
move list is empty, the move count is 0 and the elapsed milliseconds are
carried — never a partial move list alongside the single error field. -/
theorem claim5_error_implies_empty (search : String → Nat → Nat → String)
    (elapsed : Nat) (s : CubeState) (e : String)
    (h : (solve search elapsed s).error = some e) :
    (solve search elapsed s).solution = [] ∧ (solve search elapsed s).moveCount = 0 ∧
    (solve search elapsed s).solveTimeMs = elapsed := by
  unfold solve solveTry at h ⊢
  cases hv : validateState s with
  | some r => exact ⟨rfl, rfl, rfl⟩
  | none =>
    cases hk : toKociembaString s with
    | error m => exact ⟨rfl, rfl, rfl⟩
    | ok k =>
      rw [hv] at h
      rw [hk] at h
      by_cases hs : k = solvedKociemba
      · rw [hs] at h; simp at h
      · simp only [if_neg hs] at h ⊢
        unfold finishSearch at h ⊢
        by_cases he : startsWithError (search k 22 10000) = true
        · rw [if_pos he] at h ⊢; exact ⟨rfl, rfl, rfl⟩
        · rw [if_neg he] at h; simp at h

/-- Claim C5, witness: a timed-out search on a valid scrambled layout
yields an error response with empty move list, zero count and the
elapsed time. -/
theorem claim5_witness :
    (solve (fun _ _ _ => "Error 8") 4 uTurnState).solution = [] ∧
    (solve (fun _ _ _ => "Error 8") 4 uTurnState).moveCount = 0 ∧
    (solve (fun _ _ _ => "Error 8") 4 uTurnState).solveTimeMs = 4 :=
  claim5_error_implies_empty (fun _ _ _ => "Error 8") 4 uTurnState
    "Timeout - no solution found within time limit" (by decide)

/-- Claim C6: Solve consults the engine only at maxDepth 22 and timeout
10000 ms; when the engine reports the no-solution-within-depth code it
returns the DepthExceeded message and when the engine reports the
time-budget code it returns the TimedOut message, and those two error
outcomes are distinct. -/
theorem claim6_depth_timeout :
    (∀ (s₁ s₂ : String → Nat → Nat → String) (elapsed : Nat) (st : CubeState),
      (∀ k, s₁ k 22 10000 = s₂ k 22 10000) → solve s₁ elapsed st = solve s₂ elapsed st) ∧
    (∀ (search : String → Nat → Nat → String) (elapsed : Nat) (st : CubeState)
      (k : String), validateState st = none → toKociembaString st = .ok k →
      k ≠ solvedKociemba →
      ((search k 22 10000 = "Error 7" →
        solve search elapsed st =
          ⟨[], 0, elapsed, some "No solution found within max depth"⟩) ∧
       (search k 22 10000 = "Error 8" →
        solve search elapsed st =
          ⟨[], 0, elapsed, some "Timeout - no solution found within time limit"⟩))) ∧
    ("No solution found within max depth" ≠
      "Timeout - no solution found within time limit") := by
  refine ⟨?_, ?_, by decide⟩
  · intro s₁ s₂ elapsed st hext
    unfold solve solveTry
    cases validateState st with
    | some r => rfl
    | none =>
      cases toKociembaString st with
      | error m => rfl
      | ok k =>
        by_cases hs : k = solvedKociemba
        · simp only [if_pos hs]
        · simp only [if_neg hs, hext k]
  · intro search elapsed st k hv hk hne
    constructor
    · intro h7
      rw [solve_reaches_search search elapsed st k hv hk hne, h7]
      rfl
    · intro h8
      rw [solve_reaches_search search elapsed st k hv hk hne, h8]
      rfl

/-- Claim C6, witness: on the turned layout the two engine failure codes
produce the two distinct error responses. -/
theorem claim6_witness :
    solve (fun _ _ _ => "Error 7") 2 uTurnState =
      ⟨[], 0, 2, some "No solution found within max depth"⟩ ∧
    solve (fun _ _ _ => "Error 8") 2 uTurnState =
      ⟨[], 0, 2, some "Timeout - no solution found within time limit"⟩ :=
  ⟨(claim6_depth_timeout.2.1 (fun _ _ _ => "Error 7") 2 uTurnState uTurnK
      (by decide) rfl (by decide)).1 rfl,
   (claim6_depth_timeout.2.1 (fun _ _ _ => "Error 8") 2 uTurnState uTurnK
      (by decide) rfl (by decide)).2 rfl⟩

/-- Claim C9: validation never reads the six center facelets: two layouts
agreeing on every facelet other than the centers (index 4 of each face)
validate identically. -/
theorem claim9_centers_ignored (s t : CubeState)
    (h : ∀ (f : Face) (i : Fin 9), i ≠ 4 → getFace s f i = getFace t f i) :
    validateState s = validateState t := by
  have hidxE : ∀ p ∈ edgePositions, p.i1 ≠ 4 ∧ p.i2 ≠ 4 := by decide
  have hidxC : ∀ p ∈ cornerPositions, p.i1 ≠ 4 ∧ p.i2 ≠ 4 ∧ p.i3 ≠ 4 := by decide
  have hE : edgeReads s = edgeReads t := by
    refine List.map_congr_left ?_
    intro p hp
    obtain ⟨h1, h2⟩ := hidxE p hp
    rw [h p.f1 p.i1 h1, h p.f2 p.i2 h2]
  have hC : cornerReads s = cornerReads t := by
    refine List.map_congr_left ?_
    intro p hp
    obtain ⟨h1, h2, h3⟩ := hidxC p hp
    rw [h p.f1 p.i1 h1, h p.f2 p.i2 h2, h p.f3 p.i3 h3]
  unfold validateState buildValidation missingEdgesList duplicateEdgesList
    invalidEdgesList missingCornersList duplicateCornersList invalidCornersList
    edgeOcc cornerOcc
  rw [hE, hC]

/-- Claim C9, witness: an unrecognized token on the F center validates
exactly like the solved layout, that is, it passes unnoticed. -/
theorem claim9_witness :
    validateState qCenterState = validateState solvedState ∧
    validateState solvedState = none :=
  ⟨claim9_centers_ignored qCenterState solvedState (by decide), by decide⟩

/-- Claim C10: Reset yields the canonical solved state regardless of the
previous contents, a fresh CubeState equals it, and that state is
solved, validates cleanly, and renders to the canonical 54-character
Kociemba string. -/
theorem claim10_reset_solved (s : CubeState) :
    reset s = solvedState ∧ newCubeState = solvedState ∧
    isSolved solvedState = true ∧ validateState solvedState = none ∧
    toKociembaString solvedState =
      .ok "UUUUUUUUURRRRRRRRRFFFFFFFFFDDDDDDDDDLLLLLLLLLBBBBBBBBB" :=
  ⟨rfl, rfl, by decide, by decide, rfl⟩

/-! ### Kociemba claims -/

lemma ccVerify_mem (c : CubieCube) :
    ccVerify c ∈ ([0, -2, -3, -4, -5, -6] : List Int) := by
  unfold ccVerify
  repeat' split
  all_goals decide

/-- Claim C7: for every 54-character cube string, verify returns one of
the seven coded outcomes, and returns -1 exactly when the string does
not parse into the six colors with nine facelets of each. The
facelet-to-cubie conversion is an arbitrary function (it is absent from
src), so the statement holds for every conversion. -/
theorem claim7_verify_outcomes (conv : List Char → CubieCube) (s : List Char)
    (h : s.length = 54) :
    verify conv s ∈ ([0, -1, -2, -3, -4, -5, -6] : List Int) ∧
    (verify conv s = -1 ↔ wellColoredCount s = false) := by
  unfold verify tallyColors wellColoredCount
  rw [if_neg (by omega)]
  rw [show s.take 54 = s from by rw [← h]; exact List.take_length s]
  cases hm : s.mapM parseColor with
  | none =>
    refine ⟨?_, ?_⟩
    · show (-1 : Int) ∈ ([0, -1, -2, -3, -4, -5, -6] : List Int)
      decide
    · show ((-1 : Int) = -1 ↔ false = false)
      simp
  | some cols =>
    by_cases hc : (List.range 6).all (fun i => cols.count i == 9) = true
    · simp only [if_pos hc]
      have hmem := ccVerify_mem (conv s)
      constructor
      · simp only [List.mem_cons, List.mem_singleton] at hmem ⊢
        tauto
      · constructor
        · intro hbad
          rw [hbad] at hmem
          exact absurd hmem (by decide)
        · intro hfc
          rw [hc] at hfc
          cases hfc
    · simp only [if_neg hc]
      have hfalse : (List.range 6).all (fun i => cols.count i == 9) = false := by
        revert hc
        cases (List.range 6).all (fun i => cols.count i == 9) <;> simp
      refine ⟨?_, ?_⟩
      · show (-1 : Int) ∈ ([0, -1, -2, -3, -4, -5, -6] : List Int)
        decide
      · simp [hfalse]

/-- Claim C7, witness: on the solved cube string with the trivial
conversion, verify returns the solvable outcome and the iff holds. -/
theorem claim7_witness :
    solvedChars.length = 54 ∧
    (verify convId solvedChars ∈ ([0, -1, -2, -3, -4, -5, -6] : List Int) ∧
     (verify convId solvedChars = -1 ↔ wellColoredCount solvedChars = false)) :=
  ⟨by decide, claim7_verify_outcomes convId solvedChars (by decide)⟩

lemma cons_getD_eraseIdx_perm (l : List Nat) (k : Nat) (hk : k < l.length) :
    (l.getD k 0 :: l.eraseIdx k).Perm l := by
  induction l generalizing k with
  | nil => simp at hk
  | cons a t ih =>
    cases k with
    | zero => simp [List.getD]
    | succ k =>
      have hk2 : k < t.length := by simpa using hk
      have h1 : (t.getD k 0 :: a :: t.eraseIdx k).Perm
          (a :: t.getD k 0 :: t.eraseIdx k) := List.Perm.swap a (t.getD k 0) _
      have h2 : (a :: t.getD k 0 :: t.eraseIdx k).Perm (a :: t) := (ih k hk2).cons a
      exact h1.trans h2

lemma decodeGo_perm : ∀ (n idx : Nat) (l : List Nat), l.length = n →
    (decodeGo n idx l).Perm l := by
  intro n
  induction n with
  | zero =>
    intro idx l hl
    rw [List.length_eq_zero] at hl
    subst hl
    exact List.Perm.refl _
  | succ n ih =>
    intro idx l hl
    have hk : min (idx / n.factorial) n < l.length := by
      rw [hl]
      exact Nat.lt_succ_of_le (Nat.min_le_right _ _)
    have hlen : (l.eraseIdx (min (idx / n.factorial) n)).length = n := by
      rw [List.length_eraseIdx]
      rw [if_pos hk]
      omega
    show (l.getD (min (idx / n.factorial) n) 0 ::
      decodeGo n (idx % n.factorial) (l.eraseIdx (min (idx / n.factorial) n))).Perm l
    exact ((ih _ _ hlen).cons _).trans (cons_getD_eraseIdx_perm l _ hk)

lemma decodePerm_perm (idx : Nat) (l : List Nat) : (decodePerm idx l).Perm l :=
  decodeGo_perm l.length idx l rfl

lemma decodePerm_range_counts (idx n : Nat) :
    ∀ e ∈ List.range n, (decodePerm idx (List.range n)).count e = 1 := by
  intro e he
  rw [(decodePerm_perm idx (List.range n)).count_eq]
  exact List.count_eq_one_of_mem (List.nodup_range n) he

lemma flipOris_sum (flip : Nat) : (flipOris flip).sum % 2 = 0 := by
  unfold flipOris
  rw [List.sum_append]
  simp only [List.sum_cons, List.sum_nil]
  omega

lemma twistOris_sum (twist : Nat) : (twistOris twist).sum % 3 = 0 := by
  unfold twistOris
  rw [List.sum_append]
  simp only [List.sum_cons, List.sum_nil]
  omega

lemma mkRandomCube_verify (flip twist a b : Nat)
    (hpar : Nat.xor (edgeParity (mkRandomCube flip twist a b))
      (cornerParity (mkRandomCube flip twist a b)) = 0) :
    ccVerify (mkRandomCube flip twist a b) = 0 := by
  have hep : ∀ e ∈ List.range 12, (mkRandomCube flip twist a b).ep.count e = 1 :=
    decodePerm_range_counts b 12
  have hcp : ∀ e ∈ List.range 8, (mkRandomCube flip twist a b).cp.count e = 1 :=
    decodePerm_range_counts a 8
  have heo : (mkRandomCube flip twist a b).eo.sum % 2 = 0 := flipOris_sum flip
  have hco : (mkRandomCube flip twist a b).co.sum % 3 = 0 := twistOris_sum twist
  have hparity : cornerParity (mkRandomCube flip twist a b) =
      edgeParity (mkRandomCube flip twist a b) := (Nat.xor_eq_zero.mp hpar).symm
  unfold ccVerify
  rw [if_neg (not_not_intro hep), if_neg (not_not_intro heo),
    if_neg (not_not_intro hcp), if_neg (not_not_intro hco),
    if_neg (not_not_intro hparity)]

lemma randomCubeLoop_sound (flip twist : Nat) (perms : Nat → Nat × Nat) :
    ∀ (fuel k : Nat) (cc : CubieCube),
      randomCubeLoop flip twist perms fuel k = some cc →
      (∃ i, cc = mkRandomCube flip twist (perms i).1 (perms i).2) ∧
      Nat.xor (edgeParity cc) (cornerParity cc) = 0 := by
  intro fuel
  induction fuel with
  | zero => intro k cc h; cases h
  | succ n ih =>
    intro k cc h
    unfold randomCubeLoop at h
    by_cases hg : Nat.xor (edgeParity (mkRandomCube flip twist (perms k).1 (perms k).2))
        (cornerParity (mkRandomCube flip twist (perms k).1 (perms k).2)) ≠ 0
    · rw [if_pos hg] at h
      exact ih (k + 1) cc h
    · rw [if_neg hg] at h
      injection h with h2
      subst h2
      exact ⟨⟨k, rfl⟩, by omega⟩

/-- Claim C8: every cubie cube the randomCube rejection loop settles on
has equal corner-permutation and edge-permutation parities, and is a
legal (solvable) cube: the modelled solvability verifier accepts it. -/
theorem claim8_randomCube_legal (flip twist : Nat) (perms : Nat → Nat × Nat)
    (fuel : Nat) (cc : CubieCube)
    (h : randomCube flip twist perms fuel = some cc) :
    cornerParity cc = edgeParity cc ∧ ccVerify cc = 0 := by
  obtain ⟨⟨i, rfl⟩, hxor⟩ := randomCubeLoop_sound flip twist perms fuel 0 cc h
  exact ⟨(Nat.xor_eq_zero.mp hxor).symm, mkRandomCube_verify flip twist _ _ hxor⟩

/-- Claim C8, witness: with the all-zero coordinate stream the loop
settles immediately on the solved cubie cube, which the verifier
accepts. -/
theorem claim8_witness :
    cornerParity idCubie = edgeParity idCubie ∧ ccVerify idCubie = 0 :=
  claim8_randomCube_legal 0 0 (fun _ => (0, 0)) 1 idCubie (by decide)

end WebGames
